import Mathlib

/-!
Verification of the currency arbitrage scanner (src/app.py) against its
specification.

The core routine `get_market_data` is embedded shallowly: a price series is a
list of rationals, the object returned by `yf.download(...)["Close"]` is a
tagged shape (a multi-column table or a flat series), Python exceptions become
`Except` errors, and the per-currency `try/except: continue` is modelled by
dropping erroneous rows.  The presentation path (`sort_values`) and the profit
calculator are embedded below as well.
-/

namespace ArbScan

/-- A signal label, as produced by the recommendation logic of
`get_market_data` (src/app.py lines 77-88).  `buySignal` is the string
"BUY SIGNAL (Crash)", `discounted` is "Discounted", `avoid` is
"Avoid (Expensive)" and `neutral` is "Neutral". -/
inductive Signal where
  | buySignal
  | discounted
  | avoid
  | neutral
deriving DecidableEq, Repr

/-- The recommendation logic of src/app.py lines 77-88: a chain of
`if change_pct < -2.0 / elif change_pct < -0.5 / elif change_pct > 1.0 / else`
starting from the default "Neutral". -/
def classify (change_pct : ℚ) : Signal :=
  if change_pct < -2.0 then .buySignal
  else if change_pct < -0.5 then .discounted
  else if change_pct > 1.0 then .avoid
  else .neutral

/-- The Python exceptions the per-currency row computation can raise:
`series.iloc[-1]` on an empty series raises IndexError, and
`(current_price - avg_price) / avg_price` with `avg_price == 0.0` raises
ZeroDivisionError. -/
inductive RowError where
  | indexError
  | divisionError
deriving DecidableEq, Repr

/-- One row of the result DataFrame: the dict appended at src/app.py
lines 90-97, with keys "Currency", "Rate (INR)", "30d Avg", "Deviation %",
"Signal" and "Ticker". -/
structure Row where
  currency : String
  rate : ℚ
  avg : ℚ
  deviationPct : ℚ
  signal : Signal
  ticker : String
deriving DecidableEq, Repr

/-- `series.mean()` on a pandas series of closing prices. -/
def mean (s : List ℚ) : ℚ := s.sum / (s.length : ℚ)

/-- The body of the per-currency `try` block of `get_market_data`
(src/app.py lines 69-97): take the last price, the mean price, the percentage
deviation, classify it, and build the row.  A failure is returned as an
`Except.error` instead of a raised exception. -/
def computeRow (name ticker : String) (series : List ℚ) : Except RowError Row :=
  match series.getLast? with
  | none => .error .indexError
  | some current_price =>
    if mean series = 0 then .error .divisionError
    else
      let change_pct := (current_price - mean series) / mean series * 100
      .ok { currency := name, rate := current_price, avg := mean series,
            deviationPct := change_pct, signal := classify change_pct,
            ticker := ticker }

/-- The two shapes of `history = yf.download(...)["Close"]` that the loop of
`get_market_data` distinguishes (src/app.py lines 62-67): a DataFrame with one
column per ticker, or a flat Series. -/
inductive History where
  | table (cols : List (String × List ℚ))
  | flat (s : List ℚ)

/-- The series selection of src/app.py lines 62-67: for a DataFrame take the
column named by the ticker if present (else `continue`, i.e. `none`); for a
flat Series take the whole series unconditionally. -/
def seriesFor (hist : History) (ticker : String) : Option (List ℚ) :=
  match hist with
  | .table cols => (cols.find? (fun c => c.1 == ticker)).map (fun c => c.2)
  | .flat s => some s

/-- One iteration of the loop of `get_market_data` for one watchlist entry:
select the series, run the row computation, and swallow every error
(`try/except Exception: continue`, src/app.py lines 60-99). -/
def rowFor (hist : History) (entry : String × String) : Option Row :=
  match seriesFor hist entry.2 with
  | none => none
  | some series => (computeRow entry.1 entry.2 series).toOption

/-- The fetch-and-compute routine `get_market_data` (src/app.py lines 53-101),
parameterised by the watchlist and the already-downloaded history: the rows of
the returned DataFrame, in watchlist order, one per currency whose row
computation succeeded. -/
def get_market_data (currencyList : List (String × String)) (hist : History) :
    List Row :=
  currencyList.filterMap (rowFor hist)

/-- The fixed watchlist `currencies` of src/app.py lines 32-49. -/
def currencies : List (String × String) :=
  [("🇯🇵 JPY (Japan)", "JPYINR=X"),
   ("🇹🇷 TRY (Turkey)", "TRYINR=X"),
   ("🇦🇷 ARS (Argentina)", "ARSINR=X"),
   ("🇪🇬 EGP (Egypt)", "EGPINR=X"),
   ("🇮🇩 IDR (Indonesia)", "IDRINR=X"),
   ("🇻🇳 VND (Vietnam)", "VNDINR=X"),
   ("🇰🇷 KRW (South Korea)", "KRWINR=X"),
   ("🇬🇧 GBP (UK)", "GBPINR=X"),
   ("🇪🇺 EUR (Europe)", "EURINR=X"),
   ("🇨🇦 CAD (Canada)", "CADINR=X"),
   ("🇦🇺 AUD (Australia)", "AUDINR=X"),
   ("🇦🇪 AED (Dubai)", "AEDINR=X"),
   ("🇹🇭 THB (Thailand)", "THBINR=X"),
   ("🇧🇷 BRL (Brazil)", "BRLINR=X"),
   ("🇿🇦 ZAR (South Africa)", "ZARINR=X"),
   ("🇳🇴 NOK (Norway)", "NOKINR=X")]

/-- Insertion step for the ascending sort on the "Deviation %" column. -/
def insertRow (r : Row) : List Row → List Row
  | [] => [r]
  | x :: xs => if r.deviationPct < x.deviationPct then r :: x :: xs
               else x :: insertRow r xs

/-- Ascending sort on the "Deviation %" column. -/
def sortRows (rows : List Row) : List Row := rows.foldr insertRow []

/-- `df.sort_values(by="Deviation %", ascending=True)` (src/app.py line 117).
`pd.DataFrame([])` built from an empty row list has no columns at all, so
`sort_values` raises `KeyError` on it; a DataFrame built from a non-empty list
of row dicts always has the "Deviation %" column and the sort succeeds. -/
def df_sorted (rows : List Row) : Except String (List Row) :=
  if rows.isEmpty then .error "KeyError: Deviation %"
  else .ok (sortRows rows)

/-- `real_cost_inr = foreign_price * rate` (src/app.py line 149). -/
def real_cost_inr (foreign_price rate : ℚ) : ℚ := foreign_price * rate

/-- `bank_fee = real_cost_inr * 0.02` (src/app.py line 152). -/
def bank_fee (real_cost : ℚ) : ℚ := real_cost * 0.02

/-- `total_cost = real_cost_inr + bank_fee` (src/app.py line 153). -/
def total_cost (foreign_price rate : ℚ) : ℚ :=
  real_cost_inr foreign_price rate + bank_fee (real_cost_inr foreign_price rate)

/-- Modelled from the spec: the TTL memoisation state provided by the external
`@st.cache_data(ttl=300)` decorator (src/app.py line 52), whose implementation
is not part of this repository.  States are EMPTY (`none`) and
CACHED(value, expiry_time). -/
structure CacheState (α : Type) where
  entry : Option (α × ℕ)
deriving DecidableEq

/-- The TTL declared by the decorator on `get_market_data`: 300 seconds. -/
def ttl : ℕ := 300

/-- Modelled from the spec: one cached call.  A valid cached entry is returned
unchanged with no recomputation; an empty or expired cache recomputes once and
stores the fresh value with expiry now + ttl.  The boolean reports whether a
recomputation happened. -/
def cache_call {α : Type} (compute : Unit → α) (st : CacheState α) (now : ℕ) :
    α × CacheState α × Bool :=
  match st.entry with
  | some (v, expiry) =>
      if now < expiry then (v, st, false)
      else (compute (), ⟨some (compute (), now + ttl)⟩, true)
  | none => (compute (), ⟨some (compute (), now + ttl)⟩, true)

/-- Modelled from the spec: `st.cache_data.clear()` (src/app.py line 112)
forces the EMPTY state regardless of expiry. -/
def cache_clear {α : Type} (_ : CacheState α) : CacheState α := ⟨none⟩

/-- Modelled from the spec: the variant-A reference statistic, the period
maximum of the series (`series.max_value`), stated only to compare against the
reference the code actually computes. -/
def specMaxReference (s : List ℚ) : ℚ := s.foldr max 0

/-- Inversion for a successful row computation: the row carries the
watchlist name and ticker, its rate is the last price of the series, its
reference is the series mean (which is nonzero), its deviation is the
percentage formula, and its signal is the classification of that deviation. -/
theorem computeRow_ok_spec (name ticker : String) (s : List ℚ) (r : Row)
    (h : computeRow name ticker s = .ok r) :
    r.currency = name ∧ r.ticker = ticker ∧ s.getLast? = some r.rate ∧
    r.avg = mean s ∧ mean s ≠ 0 ∧
    r.deviationPct = (r.rate - mean s) / mean s * 100 ∧
    r.signal = classify r.deviationPct := by
  unfold computeRow at h
  split at h
  · exact absurd h (by simp)
  next current hl =>
    split at h
    · exact absurd h (by simp)
    next hm =>
      injection h with h
      subst h
      exact ⟨rfl, rfl, hl, rfl, hm, rfl, rfl⟩

/-- Unfolding lemma: series selection on the table shape is the lookup of
the ticker column. -/
theorem seriesFor_table (cols : List (String × List ℚ)) (t : String) :
    seriesFor (.table cols) t =
      (cols.find? (fun c => c.1 == t)).map (fun c => c.2) := rfl

/-- Unfolding lemma: series selection on the flat shape returns the whole
series for every ticker. -/
theorem seriesFor_flat (s : List ℚ) (t : String) :
    seriesFor (.flat s) t = some s := rfl

/-- Inversion for membership in the result of `get_market_data`: every
emitted row comes from some watchlist entry whose series was selected from
the history and whose row computation succeeded. -/
theorem mem_get_market_data (cs : List (String × String)) (hist : History)
    (r : Row) (hr : r ∈ get_market_data cs hist) :
    ∃ p ∈ cs, ∃ s, seriesFor hist p.2 = some s ∧
      computeRow p.1 p.2 s = .ok r := by
  simp only [get_market_data] at hr
  obtain ⟨p, hp, hrow⟩ := List.mem_filterMap.1 hr
  unfold rowFor at hrow
  split at hrow
  · exact absurd hrow (by simp)
  next series hs =>
    cases hok : computeRow p.1 p.2 series with
    | error err =>
      rw [hok] at hrow
      exact absurd hrow (by simp [Except.toOption])
    | ok r0 =>
      rw [hok] at hrow
      simp [Except.toOption] at hrow
      exact ⟨p, hp, series, hs, hrow ▸ hok⟩

/-- C1: in mean-deviation mode the classification applies the fixed
thresholds in strict descending-severity order — deviation < -2.0 gives
strong-buy; otherwise deviation < -0.5 gives discounted; otherwise
deviation > 1.0 gives avoid; otherwise neutral — so only the first matching
rule applies, and in particular a deviation of -3.0 classifies as strong-buy,
not discounted. -/
theorem c1_threshold_priority (d : ℚ) :
    (d < -2 → classify d = .buySignal) ∧
    (-2 ≤ d → d < -(1/2) → classify d = .discounted) ∧
    (-(1/2) ≤ d → 1 < d → classify d = .avoid) ∧
    (-(1/2) ≤ d → d ≤ 1 → classify d = .neutral) ∧
    classify (-3) = .buySignal ∧ classify (-3) ≠ .discounted := by
  have e2 : (-2.0 : ℚ) = -2 := by norm_num
  have e5 : (-0.5 : ℚ) = -(1/2) := by norm_num
  have e1 : (1.0 : ℚ) = 1 := by norm_num
  unfold classify
  rw [e2, e5, e1]
  refine ⟨?_, ?_, ?_, ?_, ?_, ?_⟩ <;> intros <;> split_ifs <;>
    first
      | rfl
      | decide
      | linarith

/-- Witness for C1 at concrete deviations: -3 is strong-buy, -1 is
discounted, 2 is avoid, 0 is neutral. -/
theorem c1_threshold_priority_witness :
    classify (-3) = .buySignal ∧ classify (-1) = .discounted ∧
    classify 2 = .avoid ∧ classify 0 = .neutral :=
  ⟨(c1_threshold_priority (-3)).1 (by norm_num),
   (c1_threshold_priority (-1)).2.1 (by norm_num) (by norm_num),
   (c1_threshold_priority 2).2.2.1 (by norm_num) (by norm_num),
   (c1_threshold_priority 0).2.2.2.1 (by norm_num) (by norm_num)⟩

/-- C10: the threshold comparisons are strict, so a deviation of exactly
-2.0 classifies as discounted (not strong-buy), and deviations of exactly
-0.5 and exactly 1.0 classify as neutral. -/
theorem c10_boundary_classification :
    classify (-2) = .discounted ∧ classify (-(1/2)) = .neutral ∧
    classify 1 = .neutral := by
  refine ⟨?_, ?_, ?_⟩ <;> norm_num [classify]

/-- C2: for a series whose last value exists and whose mean is nonzero, the
row computation succeeds with current = last value, reference = mean,
deviation = (current - reference) / reference * 100, and (for a positive
mean) the deviation is negative exactly when the current price is below the
mean. -/
theorem c2_row_fields (name ticker : String) (s : List ℚ) (current : ℚ)
    (hlast : s.getLast? = some current) (hm : mean s ≠ 0) :
    ∃ r, computeRow name ticker s = .ok r ∧ r.rate = current ∧
      r.avg = mean s ∧
      r.deviationPct = (current - mean s) / mean s * 100 ∧
      (0 < mean s → (r.deviationPct < 0 ↔ current < mean s)) := by
  refine ⟨{ currency := name, rate := current, avg := mean s,
            deviationPct := (current - mean s) / mean s * 100,
            signal := classify ((current - mean s) / mean s * 100),
            ticker := ticker }, ?_, rfl, rfl, rfl, ?_⟩
  · unfold computeRow
    rw [hlast]
    simp [hm]
  · intro hpos
    have h1 : (current - mean s) / mean s * 100 < 0 ↔
        (current - mean s) / mean s < 0 := by
      constructor <;> intro h <;> linarith
    rw [h1, div_neg_iff]
    constructor
    · rintro (⟨_, hb⟩ | ⟨ha, _⟩)
      · linarith
      · linarith
    · intro hlt
      exact Or.inr ⟨by linarith, hpos⟩

/-- Witness for C2 on the series [1, 2, 3]: the row has rate 3, reference 2
and deviation 50 percent. -/
theorem c2_row_fields_witness :
    ∃ r, computeRow "A" "T" [1, 2, 3] = .ok r ∧ r.rate = 3 ∧ r.avg = 2 ∧
      r.deviationPct = 50 := by
  have hmean : mean [1, 2, 3] = 2 := by norm_num [mean]
  obtain ⟨r, hok, hrate, havg, hdev, _⟩ :=
    c2_row_fields "A" "T" [1, 2, 3] 3 (by rfl) (by rw [hmean]; norm_num)
  refine ⟨r, hok, hrate, by rw [havg, hmean], ?_⟩
  rw [hdev, hmean]
  norm_num

/-- C9: the calculator computes real_cost = foreign_price * rate and
total_cost = real_cost * 1.02 (a fixed 2 percent fee added); at
foreign_price = 10000 and rate = 0.6 this gives 6000 and 6120. -/
theorem c9_calculator (foreign_price rate : ℚ) :
    real_cost_inr foreign_price rate = foreign_price * rate ∧
    total_cost foreign_price rate = foreign_price * rate * (102/100) ∧
    real_cost_inr 10000 (6/10) = 6000 ∧ total_cost 10000 (6/10) = 6120 := by
  refine ⟨rfl, ?_, by norm_num [real_cost_inr],
    by norm_num [total_cost, real_cost_inr, bank_fee]⟩
  unfold total_cost bank_fee real_cost_inr
  norm_num
  ring

/-- C3 counterexample: on the series [1, -1] (mean exactly 0, last value -1)
the row computation does raise the DivisionError-kind failure, but the
fetch-and-compute routine returns normally with the currency excluded: the
failure is swallowed by the per-currency handler and does NOT propagate out
of `get_market_data`. -/
theorem c3_counterexample :
    computeRow "🇯🇵 JPY (Japan)" "JPYINR=X" [1, -1] = .error .divisionError ∧
    get_market_data [("🇯🇵 JPY (Japan)", "JPYINR=X")] (.flat [1, -1]) = [] := by
  constructor
  · norm_num [computeRow, mean, List.getLast?]
  · norm_num [get_market_data, rowFor, seriesFor, computeRow, mean,
      List.getLast?, Except.toOption, List.filterMap]

/-- C3 amended: for every series with a last value and reference (mean)
exactly 0, the per-row signal computation fails with a DivisionError-kind
failure; the fetch-and-compute routine swallows that failure (the currency is
excluded rather than the batch aborting), and every row that is emitted has a
nonzero reference, so no row ever carries an infinite or undefined
deviation. -/
theorem c3_division_swallowed (name ticker : String) (s : List ℚ) (c : ℚ)
    (hl : s.getLast? = some c) (hm : mean s = 0) :
    computeRow name ticker s = .error .divisionError ∧
    ∀ (cs : List (String × String)) (hist : History) (r : Row),
      r ∈ get_market_data cs hist → r.avg ≠ 0 := by
  constructor
  · unfold computeRow
    rw [hl]
    simp [hm]
  · intro cs hist r hr
    obtain ⟨p, hp, series, hs, hok⟩ := mem_get_market_data cs hist r hr
    obtain ⟨-, -, -, havg, hmne, -, -⟩ :=
      computeRow_ok_spec p.1 p.2 series r hok
    rw [havg]
    exact hmne

/-- Witness for the amended C3 on the concrete series [1, -1]. -/
theorem c3_division_swallowed_witness :
    computeRow "A" "T" [1, -1] = .error .divisionError :=
  (c3_division_swallowed "A" "T" [1, -1] (-1) (by rfl)
    (by norm_num [mean])).1

/-- C4: a watchlist entry whose row computation fails (missing ticker
column, empty series, or zero mean) is simply dropped: the batch result
equals the result for the watchlist without that entry, so every other
currency is unaffected and the batch never aborts. -/
theorem c4_single_failure_isolated (cs₁ cs₂ : List (String × String))
    (name ticker : String) (hist : History)
    (hfail : rowFor hist (name, ticker) = none) :
    get_market_data (cs₁ ++ (name, ticker) :: cs₂) hist =
      get_market_data (cs₁ ++ cs₂) hist := by
  simp [get_market_data, List.filterMap_append, List.filterMap_cons, hfail]

/-- Witness for C4: dropping the middle entry "B" (whose ticker has no
column in the history) leaves the rows of "A" and "C" unchanged. -/
theorem c4_single_failure_isolated_witness :
    get_market_data [("A", "T1"), ("B", "T2"), ("C", "T3")]
        (.table [("T1", [1, 2]), ("T3", [2, 1])]) =
      get_market_data [("A", "T1"), ("C", "T3")]
        (.table [("T1", [1, 2]), ("T3", [2, 1])]) :=
  c4_single_failure_isolated [("A", "T1")] [("C", "T3")] "B" "T2"
    (.table [("T1", [1, 2]), ("T3", [2, 1])]) (by rfl)

/-- C5 counterexample: a flat provider return holds the data of exactly one
symbol, yet on a two-currency watchlist the loop attributes that single
series to BOTH currencies: the result has two rows, for the distinct tickers
"T1" and "T2", carrying identical market data computed from the one flat
series — so the data of one ticker is misattributed to the other
currency. -/
theorem c5_counterexample :
    (get_market_data [("A", "T1"), ("B", "T2")] (.flat [100, 90])).map
        (fun r => (r.ticker, r.rate, r.avg)) =
      [("T1", 90, 95), ("T2", 90, 95)] := by
  norm_num [get_market_data, rowFor, seriesFor, computeRow, mean,
    List.getLast?, Except.toOption, List.filterMap, classify]

/-- C5 amended: in the combined-table shape every emitted row is computed
from the column labelled with that row's own ticker (correct attribution,
and entries without a column are skipped); in the flat-series shape the
single series is attributed to every watchlist currency that yields a row,
which is correct attribution only when the watchlist has one currency. -/
theorem c5_attribution (cs : List (String × String))
    (cols : List (String × List ℚ)) (s0 : List ℚ) :
    (∀ r ∈ get_market_data cs (.table cols),
        ∃ s, (r.ticker, s) ∈ cols ∧ computeRow r.currency r.ticker s = .ok r) ∧
    (∀ r ∈ get_market_data cs (.flat s0),
        computeRow r.currency r.ticker s0 = .ok r) := by
  constructor
  · intro r hr
    obtain ⟨p, hp, s, hs, hok⟩ := mem_get_market_data cs (.table cols) r hr
    obtain ⟨hcur, htick, -, -, -, -, -⟩ := computeRow_ok_spec p.1 p.2 s r hok
    rw [seriesFor_table] at hs
    cases hfind : cols.find? (fun c => c.1 == p.2) with
    | none =>
      rw [hfind] at hs
      exact absurd hs (by simp)
    | some col =>
      rw [hfind] at hs
      simp at hs
      have hmem := List.mem_of_find?_eq_some hfind
      have hcol1 : col.1 = p.2 := by simpa using List.find?_some hfind
      refine ⟨s, ?_, ?_⟩
      · rw [htick, ← hcol1, ← hs]
        exact hmem
      · rw [hcur, htick]
        exact hok
  · intro r hr
    obtain ⟨p, hp, s, hs, hok⟩ := mem_get_market_data cs (.flat s0) r hr
    obtain ⟨hcur, htick, -, -, -, -, -⟩ := computeRow_ok_spec p.1 p.2 s r hok
    have hss : s0 = s := by simpa [seriesFor_flat] using hs
    rw [hcur, htick, hss]
    exact hok

/-- Witness for the amended C5: on a one-entry watchlist with a table
history, the emitted row is computed from the column of its own ticker. -/
theorem c5_attribution_witness :
    ∃ s, ("T1", s) ∈ [("T1", [(1 : ℚ), 2])] ∧
      computeRow "A" "T1" s =
        .ok { currency := "A", rate := 2, avg := 3/2, deviationPct := 100/3,
              signal := .avoid, ticker := "T1" } := by
  have h := (c5_attribution [("A", "T1")] [("T1", [1, 2])] []).1
  have hev : get_market_data [("A", "T1")] (.table [("T1", [(1 : ℚ), 2])]) =
      [{ currency := "A", rate := 2, avg := 3/2, deviationPct := 100/3,
         signal := .avoid, ticker := "T1" }] := by
    norm_num [get_market_data, rowFor, seriesFor, computeRow, mean,
      List.getLast?, Except.toOption, List.filterMap, List.find?, classify]
  exact h _ (by rw [hev]; exact List.mem_singleton.2 rfl)

/-- C6 (cache modelled from the spec, the implementation being external to
this repository): a valid cached entry is returned unchanged with no
recomputation, so two calls within the TTL window both return the identical
ResultSet; a call on an expired entry or on the empty cache triggers exactly
one recomputation and stores the new value with expiry now + ttl; the
explicit clear action forces the EMPTY state regardless of expiry. -/
theorem c6_cache_state_machine {α : Type} (compute : Unit → α) (v : α)
    (e now : ℕ) :
    (now < e → cache_call compute ⟨some (v, e)⟩ now = (v, ⟨some (v, e)⟩, false)) ∧
    (e ≤ now → cache_call compute ⟨some (v, e)⟩ now =
        (compute (), ⟨some (compute (), now + ttl)⟩, true)) ∧
    cache_call compute (⟨none⟩ : CacheState α) now =
        (compute (), ⟨some (compute (), now + ttl)⟩, true) ∧
    cache_clear (⟨some (v, e)⟩ : CacheState α) = ⟨none⟩ := by
  refine ⟨?_, ?_, rfl, rfl⟩
  · intro h
    simp [cache_call, h]
  · intro h
    simp [cache_call, Nat.not_lt.2 h]

/-- Witness for C6: a concrete valid hit, a concrete expired miss, and a
concrete cold miss. -/
theorem c6_cache_state_machine_witness :
    cache_call (fun _ => (7 : ℕ)) ⟨some (5, 10)⟩ 3 =
        (5, ⟨some (5, 10)⟩, false) ∧
    cache_call (fun _ => (7 : ℕ)) ⟨some (5, 10)⟩ 10 =
        (7, ⟨some (7, 310)⟩, true) ∧
    cache_call (fun _ => (7 : ℕ)) (⟨none⟩ : CacheState ℕ) 0 =
        (7, ⟨some (7, 300)⟩, true) :=
  ⟨(c6_cache_state_machine (fun _ => (7 : ℕ)) 5 10 3).1 (by norm_num),
   (c6_cache_state_machine (fun _ => (7 : ℕ)) 5 10 10).2.1 (by norm_num),
   (c6_cache_state_machine (fun _ => (7 : ℕ)) 5 10 0).2.2.1⟩

/-- C7: when every currency fails the computed ResultSet is empty, and the
presentation path fails at the top level (the sort on the "Deviation %"
column raises KeyError, because a DataFrame built from an empty row list has
no columns) instead of rendering an empty table. -/
theorem c7_empty_result_errors (cs : List (String × String)) (hist : History)
    (h : get_market_data cs hist = []) :
    df_sorted (get_market_data cs hist) = .error "KeyError: Deviation %" := by
  rw [h]
  rfl

/-- Witness for C7: with the real watchlist and a history whose series is
empty, every currency fails and the presentation path errors. -/
theorem c7_empty_result_errors_witness :
    df_sorted (get_market_data currencies (.flat [])) =
      .error "KeyError: Deviation %" :=
  c7_empty_result_errors currencies (.flat []) (by
    norm_num [get_market_data, currencies, rowFor, seriesFor, computeRow,
      List.getLast?, Except.toOption, List.filterMap])

/-- C8 counterexample: the routine has no mode parameter; on the series
[100, 105, 110, 90] it computes the reference 405/4 (the period mean,
variant B), which differs from the period maximum 110 that variant A
("arbitrage gap" mode) requires — so the variant-A reference statistic is
not supported by this code. -/
theorem c8_counterexample :
    computeRow "X" "T" [100, 105, 110, 90] =
      .ok { currency := "X", rate := 90, avg := 405/4, deviationPct := -100/9,
            signal := .buySignal, ticker := "T" } ∧
    specMaxReference [100, 105, 110, 90] = 110 ∧ ((405 : ℚ)/4) ≠ 110 := by
  refine ⟨?_, ?_, by norm_num⟩
  · norm_num [computeRow, mean, List.getLast?, classify]
  · simp only [specMaxReference, List.foldr]
    norm_num [max_def]

/-- C8 amended: the Signal Computer of this repository is hard-coded to
variant B — every emitted row has the series mean as its reference; the
period-maximum variant is not a configurable choice. -/
theorem c8_reference_is_mean (name ticker : String) (s : List ℚ) (r : Row)
    (h : computeRow name ticker s = .ok r) : r.avg = mean s :=
  (computeRow_ok_spec name ticker s r h).2.2.2.1

/-- Witness for the amended C8 on the series [100, 105, 110, 90]. -/
theorem c8_reference_is_mean_witness :
    ({ currency := "X", rate := 90, avg := 405/4, deviationPct := -100/9,
       signal := .buySignal, ticker := "T" } : Row).avg =
      mean [100, 105, 110, 90] :=
  c8_reference_is_mean "X" "T" [100, 105, 110, 90] _ (by
    norm_num [computeRow, mean, List.getLast?, classify])

end ArbScan
